import Mathlib

/-!
Verification of the smart reservoir controller pipeline
(`data_preprocessing.py`, `model_training.py`, `risk_engine.py`,
`optimization_engine.py`, `evaluation.py`, `app/dashboard.py`).

Numeric values are embedded as exact rationals (`ℚ`).  The trained
regression model is opaque to the pipeline (the code only ever calls
`model.predict` row-wise on the four feature columns), so it is embedded
as a function `Row → ℚ`; likewise the training step `model.fit` is an
opaque parameter `fit : List Row → Row → ℚ`.
-/

namespace Reservoir

/-- Round-half-to-even to the nearest integer, the rounding mode of
Python's builtin `round`. -/
def rhe (x : ℚ) : ℤ :=
  if x - ⌊x⌋ < 1/2 then ⌊x⌋
  else if 1/2 < x - ⌊x⌋ then ⌊x⌋ + 1
  else if ⌊x⌋ % 2 = 0 then ⌊x⌋ else ⌊x⌋ + 1

/-- Powers of ten, written out so that proof automation can evaluate them. -/
def pow10 : ℕ → ℚ
  | 0 => 1
  | n + 1 => 10 * pow10 n

/-- Python's `round(x, d)`: round-half-to-even at `d` decimal digits. -/
def pyRound (x : ℚ) (d : ℕ) : ℚ :=
  (rhe (x * pow10 d) : ℚ) / pow10 d

/-- One row of the processed dataset
(`data/processed/clean_reservoir_data.csv`): the four feature columns
used by every `model.predict` call, plus the target column. -/
structure Row where
  inflow : ℚ
  rainfall : ℚ
  storage : ℚ
  release : ℚ
  next_day_storage : ℚ
deriving DecidableEq

/- ---------- src/optimization_engine.py ---------- -/

/-- `optimization_engine.recommend_release`: scale the current release by a
factor chosen from the predicted-storage band, and round to two decimals. -/
def recommend_release (predicted_storage current_release : ℚ) : ℚ :=
  let new_release :=
    if predicted_storage > 95 then current_release * 1.5
    else if predicted_storage > 80 then current_release * 1.2
    else if predicted_storage ≥ 60 then current_release
    else if predicted_storage ≥ 40 then current_release * 0.8
    else current_release * 0.6
  pyRound new_release 2

/-- The loop body of `optimization_engine.simulate_decision_effect`:
simulate the effect of the recommended release on one row and clamp the
adjusted storage into `[0, 100]`. -/
def optAdjustedStorage (row : Row) (predicted_storage : ℚ) : ℚ :=
  let new_release := recommend_release predicted_storage row.release
  let adjusted := row.storage + row.inflow / 1000 - new_release / 1000 - 0.15
  max 0 (min 100 adjusted)

/-- `optimization_engine.simulate_decision_effect`: baseline model
predictions paired with the clamped storage adjusted per row by the
recommended release. -/
def simulate_decision_effect (model : Row → ℚ) (df : List Row) :
    List ℚ × List ℚ :=
  let baseline := df.map model
  (baseline, List.zipWith optAdjustedStorage df baseline)

/-- `optimization_engine.calculate_effectiveness`: percentage reduction of
overflow (>95) rows, or 100 when the baseline has none (in which case the
division by the overflow count is never reached). -/
def calculate_effectiveness (baseline optimized : List ℚ) : ℚ :=
  let baseline_overflow := (baseline.filter (fun x => 95 < x)).length
  let optimized_overflow := (optimized.filter (fun x => 95 < x)).length
  if baseline_overflow = 0 then 100
  else
    pyRound ((((baseline_overflow : ℚ) - (optimized_overflow : ℚ)) /
      (baseline_overflow : ℚ)) * 100) 2

/- ---------- src/risk_engine.py ---------- -/

/-- `risk_engine.classify_risk`. -/
def classify_risk (predicted_storage rainfall : ℚ) : String :=
  if predicted_storage > 95 then ("FLOOD RISK")
  else if predicted_storage < 25 ∧ rainfall < 5 then ("DROUGHT RISK")
  else ("SAFE")

/- ---------- src/evaluation.py ---------- -/

/-- Sklearn's `mean_absolute_error`. -/
def mean_absolute_error (y_true y_pred : List ℚ) : ℚ :=
  (List.zipWith (fun a b => |a - b|) y_true y_pred).sum / (y_true.length : ℚ)

/-- Sklearn's `mean_squared_error`. -/
def mean_squared_error (y_true y_pred : List ℚ) : ℚ :=
  (List.zipWith (fun a b => (a - b) ^ 2) y_true y_pred).sum / (y_true.length : ℚ)

/-- Sklearn's `r2_score` (coefficient of determination). -/
def r2_score (y_true y_pred : List ℚ) : ℚ :=
  let m := y_true.sum / (y_true.length : ℚ)
  1 - (List.zipWith (fun a b => (a - b) ^ 2) y_true y_pred).sum /
    ((y_true.map (fun a => (a - m) ^ 2)).sum)

/-- `evaluation.forecast_accuracy`: MAE, R², and
`accuracy_percent = max(0, r2 * 100)`, rounded as in the code. -/
def forecast_accuracy (model : Row → ℚ) (df : List Row) : ℚ × ℚ × ℚ :=
  let predictions := df.map model
  let y_true := df.map Row.next_day_storage
  let mae := mean_absolute_error y_true predictions
  let r2 := r2_score y_true predictions
  let accuracy_percent := max 0 (r2 * 100)
  (pyRound mae 3, pyRound r2 3, pyRound accuracy_percent 2)

/-- The loop body of `evaluation.decision_effectiveness`: scale the
historical release by 1.5 when the baseline prediction exceeds 95, then
recompute storage.  Unlike `optAdjustedStorage` the result is NOT clamped
and the scaled release is NOT rounded. -/
def evalAdjustedStorage (row : Row) (predicted : ℚ) : ℚ :=
  let new_release := if predicted > 95 then row.release * 1.5 else row.release
  row.storage + row.inflow / 1000 - new_release / 1000 - 0.15

/-- `evaluation.decision_effectiveness`. -/
def decision_effectiveness (model : Row → ℚ) (df : List Row) : ℚ :=
  let baseline := df.map model
  let optimized := List.zipWith evalAdjustedStorage df baseline
  let baseline_overflow := (baseline.filter (fun x => 95 < x)).length
  let optimized_overflow := (optimized.filter (fun x => 95 < x)).length
  if baseline_overflow = 0 then 100
  else
    pyRound ((((baseline_overflow : ℚ) - (optimized_overflow : ℚ)) /
      (baseline_overflow : ℚ)) * 100) 2

/- ---------- src/model_training.py ---------- -/

/-- Models sklearn's `train_test_split(X, y, test_size=0.2, shuffle=False)`
as called by `model_training.train_model`: the held-out test set is the
final `ceil(0.2 * n)` rows in their original order and the training set is
the preceding rows, with no shuffling. -/
def train_test_split (df : List Row) : List Row × List Row :=
  let n_test := (df.length + 4) / 5
  (df.take (df.length - n_test), df.drop (df.length - n_test))

/-- Result of `model_training.train_model`.  The code returns
`(model, mae, rmse, r2)`; `rmse = sqrt(mse)` is irrational in general, so
the squared value `mse` is carried here instead. -/
structure TrainOutput where
  train : List Row
  test : List Row
  model : Row → ℚ
  mae : ℚ
  mse : ℚ
  r2 : ℚ

/-- `model_training.train_model`, with the opaque
`RandomForestRegressor.fit` passed in as `fit`. -/
def train_model (fit : List Row → Row → ℚ) (df : List Row) : TrainOutput :=
  let p := train_test_split df
  let model := fit p.1
  let predictions := p.2.map model
  let y_test := p.2.map Row.next_day_storage
  { train := p.1, test := p.2, model := model,
    mae := mean_absolute_error y_test predictions,
    mse := mean_squared_error y_test predictions,
    r2 := r2_score y_test predictions }

/- ---------- src/data_preprocessing.py ---------- -/

/-- Column-name normalization done by `clean_data`:
`df.columns.str.strip().str.lower()`. -/
def normalizeCol (s : String) : String := s.trim.toLower

/-- The required columns checked by `clean_data`. -/
def requiredColumns : List String :=
  ["date", "inflow", "rainfall", "storage", "release"]

/-- A raw input frame: named columns and rows of cells, a missing cell
(`none`) standing for NaN. -/
structure RawFrame where
  cols : List String
  rows : List (List (Option ℚ))

/-- Cell of a row at a column index (`none` when out of range). -/
def cellAt (row : List (Option ℚ)) (i : ℕ) : Option ℚ :=
  row.getD i none

/-- Comparison on the date column used by `df.sort_values("date")`;
missing dates sort last as pandas does with NaT. -/
def dateLE (i : ℕ) (r1 r2 : List (Option ℚ)) : Bool :=
  match cellAt r1 i, cellAt r2 i with
  | some a, some b => a ≤ b
  | some _, none => true
  | none, some _ => false
  | none, none => true

/-- Insertion step of the sort. -/
def insertSorted (le : α → α → Bool) (x : α) : List α → List α
  | [] => [x]
  | y :: ys => if le x y then x :: y :: ys else y :: insertSorted le x ys

/-- Insertion sort, modelling `df.sort_values("date")`. -/
def sortBy (le : α → α → Bool) : List α → List α
  | [] => []
  | x :: xs => insertSorted le x (sortBy le xs)

/-- `df.drop_duplicates()`: keep the first occurrence of each row. -/
def dedupFirstAux [DecidableEq α] (seen : List α) : List α → List α
  | [] => []
  | x :: xs =>
      if x ∈ seen then dedupFirstAux seen xs
      else x :: dedupFirstAux (x :: seen) xs

/-- `df.drop_duplicates()` entry point. -/
def dedupFirst [DecidableEq α] (l : List α) : List α := dedupFirstAux [] l

/-- One row of `df.fillna(method="ffill")`: take the previous row's (already
filled) cell wherever this row's cell is missing. -/
def ffillRow (row prev : List (Option ℚ)) : List (Option ℚ) :=
  List.zipWith (fun c p => match c with | some v => some v | none => p) row prev

/-- Remaining rows of the forward fill, given the previous filled row. -/
def ffillAux (prev : List (Option ℚ)) : List (List (Option ℚ)) → List (List (Option ℚ))
  | [] => []
  | r :: rs =>
      let r' := ffillRow r prev
      r' :: ffillAux r' rs

/-- `df.fillna(method="ffill")`: the first row is unchanged. -/
def ffill : List (List (Option ℚ)) → List (List (Option ℚ))
  | [] => []
  | r :: rs => r :: ffillAux r rs

/-- `df = df[df[col] >= 0]`: a NaN cell compares false and is dropped,
as in pandas. -/
def keepNonNeg (i : ℕ) (rows : List (List (Option ℚ))) :
    List (List (Option ℚ)) :=
  rows.filter (fun r => match cellAt r i with
    | some v => decide (0 ≤ v)
    | none => false)

/-- The transformations `clean_data` performs after the required-column
check: sort by date, drop duplicate rows, forward-fill missing values and
keep only rows with nonnegative storage, inflow and release.  All of them
are total: none can fail. -/
def cleanSteps (f : RawFrame) : RawFrame :=
  let iDate := f.cols.findIdx (fun s => s == "date")
  let iStorage := f.cols.findIdx (fun s => s == "storage")
  let iInflow := f.cols.findIdx (fun s => s == "inflow")
  let iRelease := f.cols.findIdx (fun s => s == "release")
  let sorted := sortBy (dateLE iDate) f.rows
  let deduped := dedupFirst sorted
  let filled := ffill deduped
  { cols := f.cols,
    rows := keepNonNeg iRelease (keepNonNeg iInflow (keepNonNeg iStorage filled)) }

/-- `data_preprocessing.clean_data`: normalize the column names, raise
`ValueError("Missing required column: ...")` at the first required column
that is absent (the error is returned to the caller, nothing catches it),
otherwise run the total cleaning steps. -/
def clean_data (f : RawFrame) : Except String RawFrame :=
  let cols := f.cols.map normalizeCol
  match requiredColumns.find? (fun c => !(cols.contains c)) with
  | some c => .error ("Missing required column: " ++ c)
  | none => .ok (cleanSteps { cols := cols, rows := f.rows })

/-- Whether a `clean_data` call succeeded. -/
def exceptOk (e : Except String RawFrame) : Bool :=
  match e with
  | .ok _ => true
  | .error _ => false

/- ---------- app/dashboard.py ---------- -/

/-- `dashboard.simulate_storage_projection`: simulate the storage level
forward over the inflow forecast, subtracting the release rate and the
fixed evaporation loss and clamping into `[0, 100]` at every step, and
record one trajectory entry per input step. -/
def simulate_storage_projection (storage : ℚ) (inflow : List ℚ)
    (release_rate : ℚ) : List ℚ :=
  match inflow with
  | [] => []
  | daily_inflow :: rest =>
      let s := max 0 (min 100 (storage + daily_inflow / 1000 - release_rate / 1000 - 0.15))
      s :: simulate_storage_projection s rest release_rate

/- ---------- rounding lemmas ---------- -/

theorem rhe_le (x : ℚ) : (rhe x : ℚ) ≤ x + 1/2 := by
  have hf := Int.floor_le x
  unfold rhe
  split_ifs with h1 h2 h3
  · push_cast; linarith
  · push_cast; linarith
  · push_cast; linarith
  · push_cast; linarith [le_of_not_lt h1]

theorem le_rhe (x : ℚ) : x - 1/2 ≤ (rhe x : ℚ) := by
  have hf := Int.lt_floor_add_one x
  unfold rhe
  split_ifs with h1 h2 h3
  · push_cast; linarith
  · push_cast; linarith
  · push_cast; linarith [le_of_not_lt h2]
  · push_cast; linarith

theorem rhe_mono {x y : ℚ} (h : x ≤ y) : rhe x ≤ rhe y := by
  by_contra hlt
  push_neg at hlt
  have h1 : (rhe y : ℚ) + 1 ≤ (rhe x : ℚ) := by
    exact_mod_cast Int.add_one_le_iff.mpr hlt
  have h2 := rhe_le x
  have h3 := le_rhe y
  have hxy : x = y := le_antisymm h (by linarith)
  subst hxy
  exact absurd rfl (ne_of_gt hlt)

theorem rhe_nonneg {x : ℚ} (h : 0 ≤ x) : 0 ≤ rhe x := by
  have h0 : 0 ≤ ⌊x⌋ := Int.floor_nonneg.2 h
  unfold rhe
  split_ifs <;> omega

theorem pow10_pos (d : ℕ) : 0 < pow10 d := by
  induction d with
  | zero => norm_num [pow10]
  | succ n ih => rw [pow10]; linarith

theorem pyRound_nonneg {x : ℚ} (d : ℕ) (h : 0 ≤ x) : 0 ≤ pyRound x d := by
  unfold pyRound
  have h1 : (0 : ℤ) ≤ rhe (x * pow10 d) :=
    rhe_nonneg (mul_nonneg h (le_of_lt (pow10_pos d)))
  exact div_nonneg (by exact_mod_cast h1) (le_of_lt (pow10_pos d))

theorem pyRound_mono {x y : ℚ} (d : ℕ) (h : x ≤ y) :
    pyRound x d ≤ pyRound y d := by
  unfold pyRound
  have h1 : rhe (x * pow10 d) ≤ rhe (y * pow10 d) :=
    rhe_mono (mul_le_mul_of_nonneg_right h (le_of_lt (pow10_pos d)))
  have h2 : ((rhe (x * pow10 d) : ℤ) : ℚ) ≤ ((rhe (y * pow10 d) : ℤ) : ℚ) := by
    exact_mod_cast h1
  gcongr
  exact le_of_lt (pow10_pos d)

theorem pyRound_le (x : ℚ) (d : ℕ) : pyRound x d ≤ x + 1 / (2 * pow10 d) := by
  have hp := pow10_pos d
  have h := rhe_le (x * pow10 d)
  unfold pyRound
  rw [div_le_iff hp]
  have he : (x + 1 / (2 * pow10 d)) * pow10 d = x * pow10 d + 1/2 := by
    field_simp
    ring
  rw [he]
  exact h

/- ---------- release-factor helper lemmas ---------- -/

/-- The multiplier `recommend_release` applies in each storage band. -/
def releaseFactor (s : ℚ) : ℚ :=
  if 95 < s then 3/2
  else if 80 < s then 6/5
  else if 60 ≤ s then 1
  else if 40 ≤ s then 4/5
  else 3/5

theorem recommend_release_eq_factor (s c : ℚ) :
    recommend_release s c = pyRound (c * releaseFactor s) 2 := by
  unfold recommend_release releaseFactor
  split_ifs <;> norm_num

theorem releaseFactor_nonneg (s : ℚ) : 0 ≤ releaseFactor s := by
  unfold releaseFactor
  split_ifs <;> norm_num

theorem releaseFactor_le (s : ℚ) : releaseFactor s ≤ 3/2 := by
  unfold releaseFactor
  split_ifs <;> norm_num

theorem releaseFactor_mono {s1 s2 : ℚ} (h : s1 ≤ s2) :
    releaseFactor s1 ≤ releaseFactor s2 := by
  unfold releaseFactor
  split_ifs <;> linarith

/- ---------- claim theorems: release optimization ---------- -/

/-- C1 counterexample: the claim that `recommend_release` never exceeds the
capacity fails.  With capacity 100 the current release 100 lies in
`[0, capacity]`, yet for predicted storage 96 the returned release is 150,
which exceeds the capacity. -/
theorem recommend_release_exceeds_capacity :
    (0 : ℚ) ≤ 100 ∧ (100 : ℚ) ≤ 100 ∧
      recommend_release 96 100 = 150 ∧ ¬ recommend_release 96 100 ≤ 100 := by
  have h : recommend_release 96 100 = 150 := by
    norm_num [recommend_release, pyRound, rhe, pow10]
  refine ⟨by norm_num, by norm_num, h, ?_⟩
  rw [h]; norm_num

/-- C1 (amended): `recommend_release` always returns a nonnegative value,
and for `current_release` in `[0, capacity]` the result is bounded by
`1.5 * capacity + 0.005` (the 1.5× branch plus the two-decimal rounding),
not by the capacity itself. -/
theorem recommend_release_bounds (s c cap : ℚ) (h0 : 0 ≤ c) (h1 : c ≤ cap) :
    0 ≤ recommend_release s c ∧
      recommend_release s c ≤ 3/2 * cap + 1/200 := by
  rw [recommend_release_eq_factor]
  constructor
  · exact pyRound_nonneg _ (mul_nonneg h0 (releaseFactor_nonneg s))
  · calc pyRound (c * releaseFactor s) 2
        ≤ pyRound (3/2 * cap) 2 := by
          refine pyRound_mono _ ?_
          nlinarith [releaseFactor_le s, releaseFactor_nonneg s]
      _ ≤ 3/2 * cap + 1 / (2 * pow10 2) := pyRound_le _ _
      _ = 3/2 * cap + 1/200 := by norm_num [pow10]

/-- C1 witness: the amended bounds at predicted storage 96,
current release 100, capacity 100. -/
theorem recommend_release_bounds_witness :
    0 ≤ recommend_release 96 100 ∧
      recommend_release 96 100 ≤ 3/2 * 100 + 1/200 :=
  recommend_release_bounds 96 100 100 (by norm_num) (by norm_num)

/-- C10: for a fixed nonnegative current release, `recommend_release` is
monotonically non-decreasing in the predicted storage, and its result is
always the current release multiplied by one of the factors
0.6, 0.8, 1.0, 1.2, 1.5 — selected by the storage bands below 40,
`[40, 60)`, `[60, 80]`, `(80, 95]` and above 95 — rounded to two
decimals. -/
theorem recommend_release_factor_bands :
    (∀ c s1 s2 : ℚ, 0 ≤ c → s1 ≤ s2 →
      recommend_release s1 c ≤ recommend_release s2 c) ∧
    (∀ c s : ℚ,
      (s < 40 → recommend_release s c = pyRound (c * (3/5)) 2) ∧
      (40 ≤ s → s < 60 → recommend_release s c = pyRound (c * (4/5)) 2) ∧
      (60 ≤ s → s ≤ 80 → recommend_release s c = pyRound (c * 1) 2) ∧
      (80 < s → s ≤ 95 → recommend_release s c = pyRound (c * (6/5)) 2) ∧
      (95 < s → recommend_release s c = pyRound (c * (3/2)) 2)) := by
  constructor
  · intro c s1 s2 hc h
    rw [recommend_release_eq_factor, recommend_release_eq_factor]
    exact pyRound_mono _ (mul_le_mul_of_nonneg_left (releaseFactor_mono h) hc)
  · intro c s
    refine ⟨?_, ?_, ?_, ?_, ?_⟩
    · intro h
      rw [recommend_release_eq_factor]
      congr 1
      unfold releaseFactor
      split_ifs <;> first | rfl | linarith
    · intro h1 h2
      rw [recommend_release_eq_factor]
      congr 1
      unfold releaseFactor
      split_ifs <;> first | rfl | linarith
    · intro h1 h2
      rw [recommend_release_eq_factor]
      congr 1
      unfold releaseFactor
      split_ifs <;> first | rfl | linarith
    · intro h1 h2
      rw [recommend_release_eq_factor]
      congr 1
      unfold releaseFactor
      split_ifs <;> first | rfl | linarith
    · intro h
      rw [recommend_release_eq_factor]
      congr 1
      unfold releaseFactor
      split_ifs <;> first | rfl | linarith

/-- C10 witness: monotonicity between storages 30 and 100 at release 1,
and the lowest band's factor at storage 30. -/
theorem recommend_release_factor_bands_witness :
    recommend_release 30 1 ≤ recommend_release 100 1 ∧
      recommend_release 30 1 = pyRound (1 * (3/5)) 2 :=
  ⟨recommend_release_factor_bands.1 1 30 100 (by norm_num) (by norm_num),
    (recommend_release_factor_bands.2 1 30).1 (by norm_num)⟩

/- ---------- claim theorems: risk classification ---------- -/

/-- C2 counterexample: a projected storage of 90% (inside `(85%, 95%]`)
with rainfall 10 is classified `SAFE`; the code has no elevated
flood-watch category distinct from `SAFE`. -/
theorem classify_risk_no_flood_watch_band :
    classify_risk 90 10 = ("SAFE") := by decide

/-- C2 (amended): above 95 the classifier returns the flood category;
below 25 with rainfall below 5 it returns the drought category; every
other input — including the whole `(85, 95]` band — returns `SAFE`. -/
theorem classify_risk_thresholds (s r : ℚ) :
    (95 < s → classify_risk s r = ("FLOOD RISK")) ∧
    (85 < s → s ≤ 95 → classify_risk s r = ("SAFE")) ∧
    (s < 25 → r < 5 → classify_risk s r = ("DROUGHT RISK")) ∧
    (25 ≤ s → s ≤ 95 → classify_risk s r = ("SAFE")) ∧
    (5 ≤ r → s ≤ 95 → classify_risk s r = ("SAFE")) := by
  unfold classify_risk
  refine ⟨?_, ?_, ?_, ?_, ?_⟩
  · intro h
    rw [if_pos h]
  · intro h85 h95
    rw [if_neg (by linarith : ¬ s > 95),
      if_neg (fun hc => absurd hc.1 (by linarith))]
  · intro h25 hr
    rw [if_neg (by linarith : ¬ s > 95), if_pos ⟨h25, hr⟩]
  · intro h25 h95
    rw [if_neg (by linarith : ¬ s > 95),
      if_neg (fun hc => absurd hc.1 (by linarith))]
  · intro hr h95
    rw [if_neg (by linarith : ¬ s > 95),
      if_neg (fun hc => absurd hc.2 (by linarith))]

/-- C2 witness: the amended thresholds applied at storage 90,
rainfall 10. -/
theorem classify_risk_thresholds_witness :
    classify_risk 90 10 = ("SAFE") :=
  (classify_risk_thresholds 90 10).2.1 (by norm_num) (by norm_num)

/-- C4: `classify_risk` is total and deterministic; at (96, 10) it returns
the flood category, at (20, 0) the drought category, at (60, 50) `SAFE`,
and equal inputs give equal outputs. -/
theorem classify_risk_examples :
    classify_risk 96 10 = ("FLOOD RISK") ∧
    classify_risk 20 0 = ("DROUGHT RISK") ∧
    classify_risk 60 50 = ("SAFE") ∧
    (∀ s1 r1 s2 r2 : ℚ, s1 = s2 → r1 = r2 →
      classify_risk s1 r1 = classify_risk s2 r2) := by
  refine ⟨by decide, by decide, by decide, ?_⟩
  intro s1 r1 s2 r2 hs hr
  rw [hs, hr]

/-- C4 witness: determinism applied at the concrete equal inputs
`(95 + 1, 10)` and `(96, 10)`. -/
theorem classify_risk_examples_witness :
    classify_risk (95 + 1) 10 = classify_risk 96 10 :=
  classify_risk_examples.2.2.2 (95 + 1) 10 96 10 (by norm_num) rfl

/- ---------- claim theorems: decision effectiveness ---------- -/

/-- C3 counterexample: on the row with inflow 0, rainfall 0, storage 0,
release 100 and a baseline prediction of 96 (> 95), the evaluation
harness's adjusted storage is -0.3 — outside `[0, 100]` and different
from the clamped adjusted storage of the optimizer's step simulation,
which is 0.  The two per-row computations are not the same formula. -/
theorem decision_effectiveness_not_clamped :
    evalAdjustedStorage ⟨0, 0, 0, 100, 0⟩ 96 = -3/10 ∧
    optAdjustedStorage ⟨0, 0, 0, 100, 0⟩ 96 = 0 ∧
    evalAdjustedStorage ⟨0, 0, 0, 100, 0⟩ 96 ≠
      optAdjustedStorage ⟨0, 0, 0, 100, 0⟩ 96 := by
  have h1 : evalAdjustedStorage ⟨0, 0, 0, 100, 0⟩ 96 = -3/10 := by
    norm_num [evalAdjustedStorage]
  have h2 : optAdjustedStorage ⟨0, 0, 0, 100, 0⟩ 96 = 0 := by
    norm_num [optAdjustedStorage, recommend_release, pyRound, rhe, pow10,
      min_def, max_def]
  refine ⟨h1, h2, ?_⟩
  rw [h1, h2]
  norm_num

/-- C3 (amended): for a row whose baseline prediction exceeds 95 the
evaluation harness scales the historical release by 1.5 and recomputes
storage with the same arithmetic expression as the optimizer's step
simulation, but it does not clamp the result and does not round the
scaled release; the two agree whenever the two-decimal rounding of
`1.5 * release` is exact and the unclamped value already lies in
`[0, 100]`. -/
theorem decision_effectiveness_matches_simulation (row : Row) (pred : ℚ)
    (hp : 95 < pred)
    (hr : pyRound (row.release * 1.5) 2 = row.release * 1.5)
    (h0 : 0 ≤ evalAdjustedStorage row pred)
    (h100 : evalAdjustedStorage row pred ≤ 100) :
    evalAdjustedStorage row pred = optAdjustedStorage row pred := by
  have hrr : recommend_release pred row.release = row.release * 1.5 := by
    unfold recommend_release
    rw [if_pos hp]
    exact hr
  have he : evalAdjustedStorage row pred =
      row.storage + row.inflow / 1000 - (row.release * 1.5) / 1000 - 0.15 := by
    unfold evalAdjustedStorage
    rw [if_pos hp]
  unfold optAdjustedStorage
  dsimp only
  rw [hrr, ← he]
  rw [min_eq_right h100, max_eq_right h0]

/-- C3 witness: the amended agreement at the row with storage 50 and
release 10, baseline prediction 96. -/
theorem decision_effectiveness_matches_simulation_witness :
    evalAdjustedStorage ⟨0, 0, 50, 10, 0⟩ 96 =
      optAdjustedStorage ⟨0, 0, 50, 10, 0⟩ 96 :=
  decision_effectiveness_matches_simulation ⟨0, 0, 50, 10, 0⟩ 96
    (by norm_num)
    (by norm_num [pyRound, rhe, pow10])
    (by norm_num [evalAdjustedStorage])
    (by norm_num [evalAdjustedStorage])

/-- C5: when the baseline predictions contain no value above 95, both
effectiveness scores are exactly 100; the guard returns before the
division by the baseline overflow count is reached. -/
theorem effectiveness_100_without_baseline_overflow
    (baseline optimized : List ℚ) (model : Row → ℚ) (df : List Row)
    (h1 : (baseline.filter (fun x => 95 < x)).length = 0)
    (h2 : ((df.map model).filter (fun x => 95 < x)).length = 0) :
    calculate_effectiveness baseline optimized = 100 ∧
      decision_effectiveness model df = 100 := by
  constructor
  · unfold calculate_effectiveness
    rw [if_pos h1]
  · unfold decision_effectiveness
    rw [if_pos h2]

/-- C5 witness: a baseline of one sub-threshold prediction and a
one-row dataset whose model predicts 50. -/
theorem effectiveness_100_without_baseline_overflow_witness :
    calculate_effectiveness [50] [] = 100 ∧
      decision_effectiveness (fun _ => 50) [⟨0, 0, 0, 0, 0⟩] = 100 :=
  effectiveness_100_without_baseline_overflow [50] [] (fun _ => 50)
    [⟨0, 0, 0, 0, 0⟩] (by decide) (by decide)

/- ---------- claim theorems: simulation invariants ---------- -/

theorem optAdjustedStorage_bounds (row : Row) (p : ℚ) :
    0 ≤ optAdjustedStorage row p ∧ optAdjustedStorage row p ≤ 100 := by
  unfold optAdjustedStorage
  constructor
  · exact le_max_left 0 _
  · exact max_le (by norm_num) (min_le_left 100 _)

theorem mem_zipWith {α β γ : Type} {f : α → β → γ} {l1 : List α}
    {l2 : List β} {x : γ} (h : x ∈ List.zipWith f l1 l2) :
    ∃ a b, x = f a b := by
  induction l1 generalizing l2 with
  | nil => simp at h
  | cons a t ih =>
    cases l2 with
    | nil => simp at h
    | cons b t2 =>
      rcases List.mem_cons.1 h with h' | h'
      · exact ⟨a, b, h'⟩
      · exact ih h'

/-- C9: every storage value produced by the forward simulations — each
trajectory entry of `simulate_storage_projection` and each adjusted
storage of `simulate_decision_effect` — is clamped into `[0, 100]`, and
each simulation produces exactly one entry per input step. -/
theorem simulations_clamped_and_length
    (cur rel : ℚ) (inflow : List ℚ) (model : Row → ℚ) (df : List Row) :
    (simulate_storage_projection cur inflow rel).length = inflow.length ∧
    (∀ x ∈ simulate_storage_projection cur inflow rel, 0 ≤ x ∧ x ≤ 100) ∧
    (simulate_decision_effect model df).2.length = df.length ∧
    (∀ x ∈ (simulate_decision_effect model df).2, 0 ≤ x ∧ x ≤ 100) := by
  refine ⟨?_, ?_, ?_, ?_⟩
  · induction inflow generalizing cur with
    | nil => rfl
    | cons a l ih => simpa [simulate_storage_projection] using ih _
  · induction inflow generalizing cur with
    | nil => intro x hx; simp [simulate_storage_projection] at hx
    | cons a l ih =>
      intro x hx
      rw [simulate_storage_projection] at hx
      rcases List.mem_cons.1 hx with h' | h'
      · subst h'
        exact ⟨le_max_left 0 _, max_le (by norm_num) (min_le_left 100 _)⟩
      · exact ih _ x h'
  · simp [simulate_decision_effect]
  · intro x hx
    simp only [simulate_decision_effect] at hx
    obtain ⟨a, b, rfl⟩ := mem_zipWith hx
    exact optAdjustedStorage_bounds a b

/-- C9 witness: a one-step projection from storage 50 with inflow 1000 and
no release, whose single trajectory entry is 50.85, and the one-row
decision simulation at prediction 0. -/
theorem simulations_clamped_and_length_witness :
    (simulate_storage_projection 50 [1000] 0).length = 1 ∧
      (0 ≤ (1017/20 : ℚ) ∧ (1017/20 : ℚ) ≤ 100) ∧
      (simulate_decision_effect (fun _ => 0) [⟨0, 0, 0, 0, 0⟩]).2.length = 1 :=
  ⟨(simulations_clamped_and_length 50 0 [1000] (fun _ => 0) []).1,
    (simulations_clamped_and_length 50 0 [1000] (fun _ => 0) []).2.1
      (1017/20)
      (by norm_num [simulate_storage_projection, min_def, max_def]),
    (simulations_clamped_and_length 50 0 [1000] (fun _ => 0)
      [⟨0, 0, 0, 0, 0⟩]).2.2.1⟩

/- ---------- claim theorems: evaluation metrics ---------- -/

/-- C6: `forecast_accuracy` reports the mean absolute error of the model's
predictions against next-period storage, and an accuracy percentage equal
to `max(0, r2 * 100)` (rounded to two decimals as the code does), which is
therefore never negative. -/
theorem forecast_accuracy_spec (model : Row → ℚ) (df : List Row) :
    (forecast_accuracy model df).1 =
      pyRound (mean_absolute_error (df.map Row.next_day_storage)
        (df.map model)) 3 ∧
    (forecast_accuracy model df).2.2 =
      pyRound (max 0 (r2_score (df.map Row.next_day_storage)
        (df.map model) * 100)) 2 ∧
    0 ≤ (forecast_accuracy model df).2.2 := by
  refine ⟨rfl, rfl, ?_⟩
  exact pyRound_nonneg _ (le_max_left 0 _)

/- ---------- claim theorems: training split ---------- -/

/-- C7: `train_model` splits the dataset time-ordered with no shuffling:
the training set is exactly the first `⌊0.8 n⌋` rows in their original
order, the held-out test set is exactly the remaining final `⌈0.2 n⌉`
rows, the two concatenate back to the dataset, and the reported MAE and R²
are computed on that held-out suffix. -/
theorem train_model_time_ordered_split (fit : List Row → Row → ℚ)
    (df : List Row) :
    (train_model fit df).train = df.take (4 * df.length / 5) ∧
    (train_model fit df).test = df.drop (4 * df.length / 5) ∧
    (train_model fit df).train ++ (train_model fit df).test = df ∧
    (train_model fit df).train.length = 4 * df.length / 5 ∧
    (train_model fit df).test.length = (df.length + 4) / 5 ∧
    (train_model fit df).mae =
      mean_absolute_error
        ((df.drop (4 * df.length / 5)).map Row.next_day_storage)
        ((df.drop (4 * df.length / 5)).map ((train_model fit df).model)) ∧
    (train_model fit df).r2 =
      r2_score
        ((df.drop (4 * df.length / 5)).map Row.next_day_storage)
        ((df.drop (4 * df.length / 5)).map ((train_model fit df).model)) := by
  have hk : df.length - (df.length + 4) / 5 = 4 * df.length / 5 := by omega
  unfold train_model train_test_split
  dsimp only
  rw [hk]
  refine ⟨rfl, rfl, List.take_append_drop _ _, ?_, ?_, rfl, rfl⟩
  · rw [List.length_take]; omega
  · rw [List.length_drop]; omega

/- ---------- claim theorems: data cleaning ---------- -/

/-- C8: `clean_data` fails — returning the missing-column error to its
caller, which nothing catches — if and only if at least one of the
required columns `date`, `inflow`, `rainfall`, `storage`, `release` is
absent after column-name normalization; when all required columns are
present it succeeds, every later cleaning step being total. -/
theorem clean_data_missing_column (f : RawFrame) :
    exceptOk (clean_data f) = false ↔
      ∃ c ∈ requiredColumns, c ∉ f.cols.map normalizeCol := by
  unfold clean_data
  rcases hfind : requiredColumns.find? (fun c => !((f.cols.map normalizeCol).contains c)) with _ | c
  · dsimp only
    rw [hfind]
    simp only [exceptOk]
    constructor
    · intro h
      exact absurd h (by simp)
    · rintro ⟨c, hc, hmem⟩
      have := List.find?_eq_none.1 hfind c hc
      simp at this hmem
      obtain ⟨x, hx, hxc⟩ := this
      exact absurd hxc (hmem x hx)
  · dsimp only
    rw [hfind]
    simp only [exceptOk]
    constructor
    · intro _
      refine ⟨c, List.mem_of_find?_eq_some hfind, ?_⟩
      have := List.find?_some hfind
      simpa using this
    · intro _
      trivial

end Reservoir
